import Mathlib

/-!
Shallow embedding of `controlCreator.py`, a Maya tool that serializes NURBS
curve shapes into a JSON + PNG library and re-creates them on demand.

Numbers (Maya floats) are modelled as rationals; JSON documents as an
inductive `Json` value; the flat library directory as an association list
from file names to file contents; Python exceptions as an inductive error
type.  Functions keep the source's names and control flow.
-/

/-- A 3D point / vector, componentwise rational. -/
structure Vec3 where
  x : ℚ
  y : ℚ
  z : ℚ
  deriving DecidableEq, Repr

/-- JSON documents, as written by `json.dump` / read by `json.load`. -/
inductive Json where
  | num (q : ℚ)
  | str (s : String)
  | bool (b : Bool)
  | arr (elems : List Json)
  | obj (members : List (String × Json))

/-- Contents of a file in the library directory: a JSON record or a raster
image (pixels opaque to this model). -/
inductive FileContent where
  | json (j : Json)
  | image

/-- The library directory: file name ↦ content.  Paths within the single
flat `save_folder` directory, so the name alone is the key. -/
abbrev FS := List (String × FileContent)

/-- `open(path, 'w')` + write: truncate the existing file for `path` (paths
are unique on a real filesystem) or create a new one. -/
def writeFile : FS → String → FileContent → FS
  | [], path, content => [(path, content)]
  | e :: t, path, content =>
    if e.1 = path then (path, content) :: t else e :: writeFile t path content

/-- `os.path.exists` combined with reading the file, on the flat directory
model. -/
def lookupFile : FS → String → Option FileContent
  | [], _ => none
  | e :: t, path => if e.1 = path then some e.2 else lookupFile t path

/-- `os.remove`: delete the entry for `path`. -/
def removeFile : FS → String → FS
  | [], _ => []
  | e :: t, path => if e.1 = path then removeFile t path else e :: removeFile t path

/-- Path of the library directory (line 29); only its spelling matters to the
model, as an ingredient of error messages. -/
def save_folder : String := "ccLibrary"

/-- Snapshot of a NURBS curve shape: degree, form flag, control vertices and
knot values — exactly the data `save_curve` reads at lines 86–90. -/
structure CurveDesc where
  degree : ℤ
  periodic : Bool
  point : List Vec3
  knot : List ℚ
  deriving DecidableEq, Repr

/-- Line 94: componentwise sums of `zip(*cvs)` divided by `float(len(cvs))`,
i.e. the arithmetic mean of the control points. -/
def centerOfPoints (cvs : List Vec3) : Vec3 :=
  { x := (cvs.map Vec3.x).sum / (cvs.length : ℚ)
    y := (cvs.map Vec3.y).sum / (cvs.length : ℚ)
    z := (cvs.map Vec3.z).sum / (cvs.length : ℚ) }

/-- Lines 92–98: `inverseCenter` is the negated mean, and it is added to
every control point. -/
def centerPoints (cvs : List Vec3) : List Vec3 :=
  let center := centerOfPoints cvs
  let inverseCenter : Vec3 := ⟨-center.x, -center.y, -center.z⟩
  cvs.map (fun p => ⟨inverseCenter.x + p.x, inverseCenter.y + p.y, inverseCenter.z + p.z⟩)

/-- Follows the spec words for the centering transform, for comparison:
compute the arithmetic mean of all control points and subtract it from every
point. -/
def specCentered (cvs : List Vec3) : List Vec3 :=
  let m := centerOfPoints cvs
  cvs.map (fun p => ⟨p.x - m.x, p.y - m.y, p.z - m.z⟩)

/-- Encoding of one control point as a JSON array of three numbers. -/
def vecJson (p : Vec3) : Json :=
  .arr [.num p.x, .num p.y, .num p.z]

/-- Line 100 and the `json.dump` call at line 104: the stored document is the
two-element array holding the name and the parameter dictionary.  The dump
uses `sort_keys=True`, so the members appear in alphabetical order. -/
def curveRecord (name : String) (d : CurveDesc) : Json :=
  .arr [.str name,
        .obj [("degree", .num (d.degree : ℚ)),
              ("knot", .arr (d.knot.map Json.num)),
              ("periodic", .bool d.periodic),
              ("point", .arr (d.point.map vecJson))]]

/-- Decoder for one control point, inverse of `vecJson`. -/
def decodeVec : Json → Option Vec3
  | .arr [.num x, .num y, .num z] => some ⟨x, y, z⟩
  | _ => none

/-- Decoder for a knot value. -/
def decodeNum : Json → Option ℚ
  | .num q => some q
  | _ => none

/-- Decoder for a list of control points. -/
def decodeVecList : List Json → Option (List Vec3)
  | [] => some []
  | j :: t =>
    match decodeVec j, decodeVecList t with
    | some v, some vs => some (v :: vs)
    | _, _ => none

/-- Decoder for a list of knot values. -/
def decodeNumList : List Json → Option (List ℚ)
  | [] => some []
  | j :: t =>
    match decodeNum j, decodeNumList t with
    | some q, some qs => some (q :: qs)
    | _, _ => none

/-- Decoder for a stored record: succeeds exactly on the two-element
`[name, dict]` shape whose dictionary holds the four expected keys, and
recovers the name and description field-for-field. -/
def decodeRecord : Json → Option (String × CurveDesc)
  | .arr [.str name,
          .obj [("degree", .num dg),
                ("knot", .arr ks),
                ("periodic", .bool per),
                ("point", .arr ps)]] =>
    match decodeVecList ps, decodeNumList ks with
    | some point, some knot =>
        if dg.den = 1 then some (name, ⟨dg.num, per, point, knot⟩) else none
    | _, _ => none
  | _ => none

/-- Top-level key list of a stored record, when it has the `[name, dict]`
shape. -/
def recordTopKeys : Json → Option (List String)
  | .arr [.str _, .obj members] => some (members.map Prod.fst)
  | _ => none

/-- Shape nodes that may sit under a transform: a NURBS curve shape, carrying
its name, the name of its parent transform (`listRelatives(parent=True)[0]`)
and the readable curve data; or a shape of some other node type. -/
inductive ShapeNode where
  | nurbsCurve (name parent : String) (d : CurveDesc)
  | otherShape (name : String)
  deriving DecidableEq, Repr

/-- Name of a shape node, as returned by its `name()` method. -/
def ShapeNode.shapeName : ShapeNode → String
  | .nurbsCurve n _ _ => n
  | .otherShape n => n

/-- A transform node; `getShape()` returns its shape child, or `None` when it
has no shape child. -/
structure TransformNode where
  name : String
  shape : Option ShapeNode
  deriving DecidableEq, Repr

/-- Python values that can reach the `curve` parameter of `save_curve`:
`None` (the default), a string (what the GUI line edit supplies), a transform
node, or a shape node. -/
inductive PyObj where
  | pynone
  | pystr (s : String)
  | transform (t : TransformNode)
  | shape (s : ShapeNode)
  deriving DecidableEq, Repr

/-- Python truthiness of the values above (`if not curve:`). -/
def PyObj.truthy : PyObj → Bool
  | .pynone => false
  | .pystr s => !s.isEmpty
  | .transform _ => true
  | .shape _ => true

/-- Python exceptions relevant to this program. -/
inductive PyError where
  | indexError (msg : String)
  | typeError (msg : String)
  | attributeError (msg : String)
  | ioError (msg : String)
  | valueError (msg : String)
  | osError (msg : String)
  | runtimeError (msg : String)
  deriving DecidableEq, Repr

/-- Test for the outcome the spec calls a WrongTypeError: the `TypeError`
raised at line 83.  Any other outcome — success or another exception — is
not that failure. -/
def isWrongTypeFailure : Option PyError → Bool
  | some (.typeError _) => true
  | _ => false

/-- Method call `curve.name()`: nodes answer with their name; `None` and
`str` values have no such attribute and raise. -/
def PyObj.pyName : PyObj → Except PyError String
  | .pynone => .error (.attributeError "NoneType object has no attribute name")
  | .pystr _ => .error (.attributeError "str object has no attribute name")
  | .transform t => .ok t.name
  | .shape s => .ok s.shapeName

/-- Mutable host-application state touched by the tool: the library
directory, scene objects with their visibility flag, the current and the
previous camera view (as abstract identifiers), and everything printed to
the script editor. -/
structure HostState where
  fs : FS
  objects : List (String × Bool)
  view : ℕ
  prevView : ℕ
  printed : List String

/-- Result of `pm.showHidden(x)` on one object. -/
def showHiddenOne (objects : List (String × Bool)) (name : String) :
    List (String × Bool) :=
  objects.map (fun o => if o.1 = name then (o.1, true) else o)

/-- Result of `pm.showHidden(items)` on a list of objects. -/
def showHiddenMany (objects : List (String × Bool)) (names : List String) :
    List (String × Bool) :=
  objects.map (fun o => if names.contains o.1 then (o.1, true) else o)

/-- Lines 113–133, `save_icon`: hide everything (remembering what this call
hid), show the one object, fit the view, playblast to `<filename>.png`, then
re-show the hidden items and return to the previous view.  `captureFails`
models `pm.playblast` raising; the source has no try/finally, so on that
path the function returns with the restoration steps not executed. -/
def save_icon (object : String) (filename : String) (captureFails : Bool)
    (st : HostState) : Option PyError × HostState :=
  let path := filename ++ ".png"
  let items := (st.objects.filter (fun o => o.2)).map Prod.fst
  let st1 := { st with objects := st.objects.map (fun o => (o.1, false) : String × Bool → String × Bool) }
  let st2 := { st1 with objects := showHiddenOne st1.objects object }
  let st3 := { st2 with prevView := st2.view, view := st2.view + 1 }
  if captureFails then
    (some (.runtimeError "playblast failed"), st3)
  else
    let st4 := { st3 with fs := writeFile st3.fs path .image }
    let st5 := { st4 with objects := showHiddenMany st4.objects items }
    let st6 := { st5 with view := st5.prevView, prevView := st5.view }
    (none, st6)

/-- Lines 66–111, `save_curve`: resolve the curve argument (falling back to
the first selected object, with the bare `print e.message` on an empty
selection), descend from a transform to its shape child, reject non-curve
shapes via the `raise TypeError(...)` whose message formats `curve.name()`,
snapshot the curve data, optionally center it, write the JSON record, and
capture the icon. -/
def save_curve (name : String) (curve : PyObj) (centerPivot : Bool)
    (selection : List PyObj) (captureFails : Bool) (st : HostState) :
    Option PyError × HostState :=
  let resolved :=
    if !curve.truthy then
      match selection with
      | [] => (curve, { st with printed := st.printed ++ ["list index out of range"] })
      | c :: _ => (c, st)
    else (curve, st)
  let st := resolved.2
  let afterShape :=
    match resolved.1 with
    | .transform t =>
      match t.shape with
      | some s => PyObj.shape s
      | none => PyObj.pynone
    | c => c
  match afterShape with
  | .shape (.nurbsCurve _ parent d) =>
    let cvs := if centerPivot then centerPoints d.point else d.point
    let data := curveRecord name { d with point := cvs }
    let st := { st with fs := writeFile st.fs (name ++ ".json") (.json data) }
    save_icon parent name captureFails st
  | c =>
    match c.pyName with
    | .ok n => (some (.typeError (n ++ " is not of type NurbsCurve")), st)
    | .error e => (some e, st)

/-- Lines 135–144, `load_curve`: raise the dedicated `IOError` when the file
is absent, otherwise return the parsed JSON document (`json.load` on a
non-JSON file would raise a `ValueError`). -/
def load_curve (fs : FS) (file_name : String) : Except PyError Json :=
  match lookupFile fs file_name with
  | Option.none =>
    .error (.ioError ("File " ++ file_name ++ " does not exist in " ++ save_folder))
  | some (.json j) => .ok j
  | some .image => .error (.valueError "No JSON object could be decoded")

/-- Presence of a library entry for a name, as derived from the directory
listing filtered by the `.json` extension (`load_library`, line 301). -/
def existsEntry (fs : FS) (name : String) : Bool :=
  fs.any (fun e => e.1 = name ++ ".json")

/-- Body of the loop of `deleteItem` (lines 311–318) for one selected item:
print the notice, then `os.remove` the record and the thumbnail, raising if
either is absent. -/
def deleteOne (name : String) (st : HostState) : Option PyError × HostState :=
  let data_file := name ++ ".json"
  let icon_file := name ++ ".png"
  let st := { st with printed := st.printed ++
    ["Removing " ++ name ++ ".json and " ++ name ++ ".png in folder " ++ save_folder] }
  match lookupFile st.fs data_file with
  | Option.none => (some (.osError ("No such file or directory: " ++ data_file)), st)
  | some _ =>
    let st := { st with fs := removeFile st.fs data_file }
    match lookupFile st.fs icon_file with
    | Option.none => (some (.osError ("No such file or directory: " ++ icon_file)), st)
    | some _ => (none, { st with fs := removeFile st.fs icon_file })

/-- Lines 308–321, `CurveList.deleteItem`: remove the files of every selected
item in order; an exception raised by `os.remove` aborts the loop. -/
def deleteItem (names : List String) (st : HostState) : Option PyError × HostState :=
  names.foldl
    (fun acc n =>
      match acc with
      | (some e, s) => (some e, s)
      | (Option.none, s) => deleteOne n s)
    (none, st)

/-- World-space transform of a node: translation and Euler rotation, the
values `pm.xform` queries and sets with `ws=True`. -/
structure Xform where
  translation : Vec3
  rotation : Vec3
  deriving DecidableEq, Repr

/-- World transform of a freshly constructed node: at the origin. -/
def originXform : Xform := ⟨⟨0, 0, 0⟩, ⟨0, 0, 0⟩⟩

/-- A selected target node: its name, the names of its ancestors (the parent
chain — a world-space query does not depend on it), and the world transform
Maya maintains for it. -/
structure SceneNode where
  nodeName : String
  parentChain : List String
  world : Xform
  deriving DecidableEq, Repr

/-- One curve produced by `createCurve`: the name after `pm.rename`, the
construction parameters handed to `pm.curve`, the resulting world transform,
and the offset group it was parented under, if any. -/
structure CreatedCurve where
  curveName : String
  params : CurveDesc
  world : Xform
  offsetParent : Option String
  deriving DecidableEq, Repr

/-- Lines 323–348, `CurveList.createCurve`: with a non-empty selection, one
`pm.curve(**item.params)` call per selected node, whose world translation
and rotation are then set from a `ws=True` query on that node, renamed to
`<node>_CTRL`; the optional offset group inherits the target transform and
reparenting under it preserves the curve world transform.  With an empty
selection, a single `pm.curve(**item.params)` call, which constructs the
curve at the origin under the default name. -/
def createCurve (params : CurveDesc) (selection : List SceneNode)
    (offsetChecked : Bool) : List CreatedCurve :=
  match selection with
  | [] => [{ curveName := "curve1", params := params, world := originXform,
             offsetParent := none }]
  | _ :: _ =>
    selection.map (fun selected =>
      let cname := selected.nodeName ++ "_CTRL"
      { curveName := cname
        params := params
        world := selected.world
        offsetParent := if offsetChecked then some (cname ++ "_Offset") else none })

/-! Helper lemmas about the filesystem model and the record encoding. -/

/-- Record and thumbnail paths for the same name never collide. -/
theorem json_path_ne_png_path (name : String) :
    name ++ ".json" ≠ name ++ ".png" := by
  intro h
  have hd : (name ++ ".json").data = (name ++ ".png").data := congrArg String.data h
  have hd2 : name.data ++ ".json".data = name.data ++ ".png".data := hd
  have := List.append_cancel_left hd2
  exact absurd this (by decide)

/-- Reading back the path just written yields the written content. -/
theorem lookupFile_writeFile_self (fs : FS) (p : String) (c : FileContent) :
    lookupFile (writeFile fs p c) p = some c := by
  induction fs with
  | nil => simp [writeFile, lookupFile]
  | cons e t ih =>
    by_cases h : e.1 = p
    · simp [writeFile, lookupFile, h]
    · simp [writeFile, lookupFile, h, ih]

/-- Writing one path leaves every other path unchanged. -/
theorem lookupFile_writeFile_ne (fs : FS) (p q : String) (c : FileContent)
    (h : q ≠ p) : lookupFile (writeFile fs q c) p = lookupFile fs p := by
  induction fs with
  | nil => simp [writeFile, lookupFile, h]
  | cons e t ih =>
    by_cases he : e.1 = q
    · simp [writeFile, lookupFile, he, h]
    · simp [writeFile, lookupFile, he, ih]

/-- A removed path is no longer found. -/
theorem lookupFile_removeFile_self (fs : FS) (p : String) :
    lookupFile (removeFile fs p) p = none := by
  induction fs with
  | nil => simp [removeFile, lookupFile]
  | cons e t ih =>
    by_cases h : e.1 = p
    · simp [removeFile, h, ih]
    · simp [removeFile, lookupFile, h, ih]

/-- Removing one path leaves every other path unchanged. -/
theorem lookupFile_removeFile_ne (fs : FS) (p q : String)
    (h : q ≠ p) : lookupFile (removeFile fs q) p = lookupFile fs p := by
  induction fs with
  | nil => simp [removeFile]
  | cons e t ih =>
    by_cases he : e.1 = q
    · simp [removeFile, lookupFile, he, h, ih]
    · simp [removeFile, lookupFile, he, ih]

/-- Membership in the directory listing agrees with file lookup. -/
theorem existsEntry_eq_isSome (fs : FS) (name : String) :
    existsEntry fs name = (lookupFile fs (name ++ ".json")).isSome := by
  induction fs with
  | nil => simp [existsEntry, lookupFile]
  | cons e t ih =>
    by_cases h : e.1 = name ++ ".json"
    · simp [existsEntry, lookupFile, h]
    · simp [existsEntry, lookupFile, h] at ih ⊢
      exact ih

/-- Keys present after a write were written or already present. -/
theorem mem_keys_writeFile (fs : FS) (p x : String) (c : FileContent)
    (h : x ∈ (writeFile fs p c).map Prod.fst) :
    x = p ∨ x ∈ fs.map Prod.fst := by
  induction fs with
  | nil =>
    simp only [writeFile, List.map_cons, List.map_nil, List.mem_singleton] at h
    exact Or.inl h
  | cons e t ih =>
    simp only [writeFile] at h
    by_cases he : e.1 = p
    · rw [if_pos he, List.map_cons, List.mem_cons] at h
      rcases h with h | h
      · exact Or.inl h
      · exact Or.inr (by rw [List.map_cons, List.mem_cons]; exact Or.inr h)
    · rw [if_neg he, List.map_cons, List.mem_cons] at h
      rcases h with h | h
      · exact Or.inr (by rw [List.map_cons, List.mem_cons]; exact Or.inl h)
      · rcases ih h with h | h
        · exact Or.inl h
        · exact Or.inr (by rw [List.map_cons, List.mem_cons]; exact Or.inr h)

/-- Writing preserves uniqueness of paths. -/
theorem writeFile_keys_nodup (fs : FS) (p : String) (c : FileContent)
    (h : (fs.map Prod.fst).Nodup) :
    ((writeFile fs p c).map Prod.fst).Nodup := by
  induction fs with
  | nil => simp [writeFile]
  | cons e t ih =>
    rw [List.map_cons, List.nodup_cons] at h
    simp only [writeFile]
    by_cases he : e.1 = p
    · rw [if_pos he, List.map_cons, List.nodup_cons]
      exact ⟨he ▸ h.1, h.2⟩
    · rw [if_neg he, List.map_cons, List.nodup_cons]
      refine ⟨?_, ih h.2⟩
      intro hmem
      rcases mem_keys_writeFile t p e.1 c hmem with hx | hx
      · exact he hx
      · exact h.1 hx

/-- With unique paths, exactly one entry remains for a written path. -/
theorem countP_writeFile_self (fs : FS) (p : String) (c : FileContent)
    (h : (fs.map Prod.fst).Nodup) :
    (writeFile fs p c).countP (fun e => e.1 = p) = 1 := by
  induction fs with
  | nil => simp [writeFile]
  | cons e t ih =>
    rw [List.map_cons, List.nodup_cons] at h
    by_cases he : e.1 = p
    · have hp : p ∉ t.map Prod.fst := he ▸ h.1
      have hz : t.countP (fun e => decide (e.1 = p)) = 0 := by
        refine List.countP_eq_zero.mpr ?_
        intro a ha
        simp only [decide_eq_true_eq]
        intro hap
        exact hp (List.mem_map.mpr ⟨a, ha, hap⟩)
      simp [writeFile, he, List.countP_cons, hz]
    · simp [writeFile, he, List.countP_cons, ih h.2]

/-- Writing one path does not change how many entries another path has. -/
theorem countP_writeFile_ne (fs : FS) (p q : String) (c : FileContent)
    (h : q ≠ p) :
    (writeFile fs q c).countP (fun e => e.1 = p) = fs.countP (fun e => e.1 = p) := by
  induction fs with
  | nil => simp [writeFile, h]
  | cons e t ih =>
    by_cases he : e.1 = q
    · simp [writeFile, he, List.countP_cons, h]
    · simp [writeFile, he, List.countP_cons, ih]

/-- Decoding the encoded control points gives them back. -/
theorem decodeVecList_map_vecJson (ps : List Vec3) :
    decodeVecList (ps.map vecJson) = some ps := by
  induction ps with
  | nil => rfl
  | cons p t ih => simp [decodeVecList, vecJson, decodeVec, ih]

/-- Decoding the encoded knot values gives them back. -/
theorem decodeNumList_map_num (ks : List ℚ) :
    decodeNumList (ks.map Json.num) = some ks := by
  induction ks with
  | nil => rfl
  | cons k t ih => simp [decodeNumList, decodeNum, ih]

/-- A stored record decodes back to the name and description it was built
from, field for field. -/
theorem decodeRecord_curveRecord (name : String) (d : CurveDesc) :
    decodeRecord (curveRecord name d) = some (name, d) := by
  simp [decodeRecord, curveRecord, decodeVecList_map_vecJson, decodeNumList_map_num]

/-- Effect of a successful resolution in `save_curve` on the library: the
record is written first, then (unless the capture step raises) the
thumbnail. -/
theorem save_curve_fs (name shp par : String) (d : CurveDesc) (cp : Bool)
    (sel : List PyObj) (cap : Bool) (st : HostState) :
    (save_curve name (.shape (.nurbsCurve shp par d)) cp sel cap st).2.fs =
      (if cap then
        writeFile st.fs (name ++ ".json")
          (.json (curveRecord name { d with point := if cp then centerPoints d.point else d.point }))
      else
        writeFile
          (writeFile st.fs (name ++ ".json")
            (.json (curveRecord name { d with point := if cp then centerPoints d.point else d.point })))
          (name ++ ".png") .image) := by
  cases cap <;> rfl

/-- Outcome of `save_curve` on a curve-shape input: success, unless the
capture step raises. -/
theorem save_curve_outcome (name shp par : String) (d : CurveDesc) (cp : Bool)
    (sel : List PyObj) (cap : Bool) (st : HostState) :
    (save_curve name (.shape (.nurbsCurve shp par d)) cp sel cap st).1 =
      (if cap then some (PyError.runtimeError "playblast failed") else none) := by
  cases cap <;> rfl

/-- Library state after a successful save (capture succeeding): the record,
then the thumbnail, is written. -/
theorem save_curve_fs_ok (name shp par : String) (d : CurveDesc) (cp : Bool)
    (sel : List PyObj) (st : HostState) :
    (save_curve name (.shape (.nurbsCurve shp par d)) cp sel false st).2.fs =
      writeFile
        (writeFile st.fs (name ++ ".json")
          (.json (curveRecord name
            { d with point := if cp then centerPoints d.point else d.point })))
        (name ++ ".png") .image := rfl

/-- Library state when the capture step raises: only the record was
written. -/
theorem save_curve_fs_err (name shp par : String) (d : CurveDesc) (cp : Bool)
    (sel : List PyObj) (st : HostState) :
    (save_curve name (.shape (.nurbsCurve shp par d)) cp sel true st).2.fs =
      writeFile st.fs (name ++ ".json")
        (.json (curveRecord name
          { d with point := if cp then centerPoints d.point else d.point })) := rfl

/-- Reading a present record file succeeds with its parsed content. -/
theorem load_curve_of_lookup_json (fs : FS) (fn : String) (j : Json)
    (h : lookupFile fs fn = some (.json j)) : load_curve fs fn = .ok j := by
  simp [load_curve, h]

/-- Reading an absent file raises the dedicated not-found error. -/
theorem load_curve_of_lookup_none (fs : FS) (fn : String)
    (h : lookupFile fs fn = none) :
    load_curve fs fn =
      .error (.ioError ("File " ++ fn ++ " does not exist in " ++ save_folder)) := by
  simp [load_curve, h]

/-! Claim theorems. -/

/-- C6: for every list of 3D control points, the centering step of
`save_curve` subtracts the arithmetic mean of all points from every point —
it agrees with the spec-side mean-subtraction transform — and on the points
`[(0,0,0), (2,0,0), (4,0,0)]` it yields `[(-2,0,0), (0,0,0), (2,0,0)]`.
Being a plain function of the point list, it has no effect on any other
state. -/
theorem centerPivot_mean_subtraction (cvs : List Vec3) :
    centerPoints cvs = specCentered cvs ∧
    centerPoints [⟨0, 0, 0⟩, ⟨2, 0, 0⟩, ⟨4, 0, 0⟩] =
      [⟨-2, 0, 0⟩, ⟨0, 0, 0⟩, ⟨2, 0, 0⟩] := by
  constructor
  · simp only [centerPoints, specCentered, neg_add_eq_sub]
  · simp [centerPoints, centerOfPoints]
    norm_num

/-- C2: with a non-empty selection, `createCurve` constructs exactly one
curve per selected target, each built from the stored parameters, and each
new curve's world translation and rotation equal the world transform of its
target — whatever the target's parent chain is; with an empty selection it
constructs exactly one curve from the stored parameters at the origin. -/
theorem createCurve_matches_selection (params : CurveDesc)
    (selection : List SceneNode) (off : Bool) :
    (selection ≠ [] →
      (createCurve params selection off).length = selection.length ∧
      (createCurve params selection off).map CreatedCurve.world =
        selection.map SceneNode.world ∧
      ∀ c ∈ createCurve params selection off, c.params = params) ∧
    (selection = [] →
      createCurve params selection off =
        [{ curveName := "curve1", params := params, world := originXform,
           offsetParent := none }]) := by
  constructor
  · intro h
    match selection, h with
    | s :: t, _ =>
      refine ⟨by simp [createCurve], ?_, ?_⟩
      · simp only [createCurve, List.map_map]
        rfl
      · intro c hc
        simp only [createCurve, List.mem_map] at hc
        obtain ⟨sel, _, rfl⟩ := hc
        rfl
  · rintro rfl
    rfl

/-- C2 witness: a target named joint1 with a two-deep parent chain at world
translation (1,2,3) and rotation (0,90,0) receives one curve with exactly
that world transform; the empty selection yields the single origin curve. -/
theorem createCurve_matches_selection_witness :
    (createCurve ⟨1, false, [⟨0, 0, 0⟩], [0]⟩
        [⟨"joint1", ["hips", "root"], ⟨⟨1, 2, 3⟩, ⟨0, 90, 0⟩⟩⟩] true).map
      CreatedCurve.world = [⟨⟨1, 2, 3⟩, ⟨0, 90, 0⟩⟩] ∧
    createCurve ⟨1, false, [⟨0, 0, 0⟩], [0]⟩ [] true =
      [{ curveName := "curve1", params := ⟨1, false, [⟨0, 0, 0⟩], [0]⟩,
         world := originXform, offsetParent := none }] :=
  ⟨(((createCurve_matches_selection ⟨1, false, [⟨0, 0, 0⟩], [0]⟩
      [⟨"joint1", ["hips", "root"], ⟨⟨1, 2, 3⟩, ⟨0, 90, 0⟩⟩⟩] true).1
      (List.cons_ne_nil _ _)).2.1).trans rfl,
   (createCurve_matches_selection ⟨1, false, [⟨0, 0, 0⟩], [0]⟩ [] true).2 rfl⟩

/-- C5: for a name with no record file, `load_curve` raises exactly the
dedicated not-found failure (the IOError constructed at line 139, naming the
file and the library folder), and for a name whose record file exists it
returns the stored document without failing. -/
theorem load_curve_notFound_or_stored (fs : FS) (fn : String) :
    (lookupFile fs fn = none →
      load_curve fs fn =
        .error (.ioError ("File " ++ fn ++ " does not exist in " ++ save_folder))) ∧
    (∀ j, lookupFile fs fn = some (.json j) → load_curve fs fn = .ok j) := by
  exact ⟨load_curve_of_lookup_none fs fn, fun j h => load_curve_of_lookup_json fs fn j h⟩

/-- C5 witness: in a library holding only a.json, loading missing.json
raises the not-found error and loading a.json returns the stored data. -/
theorem load_curve_notFound_or_stored_witness :
    load_curve [("a.json", FileContent.json (Json.num 1))] "missing.json" =
      .error (.ioError ("File " ++ "missing.json" ++ " does not exist in " ++ save_folder)) ∧
    load_curve [("a.json", FileContent.json (Json.num 1))] "a.json" =
      .ok (Json.num 1) :=
  ⟨(load_curve_notFound_or_stored [("a.json", FileContent.json (Json.num 1))]
      "missing.json").1 rfl,
   (load_curve_notFound_or_stored [("a.json", FileContent.json (Json.num 1))]
      "a.json").2 (Json.num 1) rfl⟩

/-- C1 (amended): with centering disabled, loading the entry produced by
`save_curve` yields exactly the stored record, the record decodes back to
the original description field-for-field, and the record is the two-element
`[name, dict]` structure whose dictionary has exactly the keys degree, knot,
periodic and point. -/
theorem save_load_field_roundTrip (name shp par : String) (d : CurveDesc)
    (sel : List PyObj) (cap : Bool) (st : HostState) :
    load_curve (save_curve name (.shape (.nurbsCurve shp par d)) false sel cap st).2.fs
        (name ++ ".json") = .ok (curveRecord name d) ∧
    decodeRecord (curveRecord name d) = some (name, d) ∧
    recordTopKeys (curveRecord name d) =
      some ["degree", "knot", "periodic", "point"] := by
  refine ⟨?_, decodeRecord_curveRecord name d, rfl⟩
  cases cap with
  | false =>
    refine load_curve_of_lookup_json _ _ _ ?_
    show lookupFile
        (writeFile (writeFile st.fs (name ++ ".json") (.json (curveRecord name d)))
          (name ++ ".png") .image)
        (name ++ ".json") = some (.json (curveRecord name d))
    rw [lookupFile_writeFile_ne _ _ _ _ (Ne.symm (json_path_ne_png_path name)),
      lookupFile_writeFile_self]
  | true =>
    refine load_curve_of_lookup_json _ _ _ ?_
    show lookupFile (writeFile st.fs (name ++ ".json") (.json (curveRecord name d)))
        (name ++ ".json") = some (.json (curveRecord name d))
    rw [lookupFile_writeFile_self]

/-- C1 witness: saving a concrete degree-1 description under the name a with
centering off and loading a.json gives back exactly its record. -/
theorem save_load_field_roundTrip_witness :
    load_curve (save_curve "a"
        (.shape (.nurbsCurve "aShape" "aT" ⟨1, false, [⟨1, 0, 0⟩, ⟨3, 0, 0⟩], [0, 1]⟩))
        false [] false ⟨[], [], 0, 0, []⟩).2.fs ("a" ++ ".json") =
      .ok (curveRecord "a" ⟨1, false, [⟨1, 0, 0⟩, ⟨3, 0, 0⟩], [0, 1]⟩) :=
  (save_load_field_roundTrip "a" "aShape" "aT" ⟨1, false, [⟨1, 0, 0⟩, ⟨3, 0, 0⟩], [0, 1]⟩
    [] false ⟨[], [], 0, 0, []⟩).1

/-- C1 counterexample: with the call exactly as the claim states it —
`save_curve(name, curve)`, so `centerPivot` at its default True — the loaded
record holds the mean-centered points, not the original ones: for the
description with points (1,0,0) and (3,0,0) the stored points are (-1,0,0)
and (1,0,0), so the loaded record differs from the record of the original
description. -/
theorem save_load_roundTrip_centering_cex :
    (save_curve "c1x"
        (.shape (.nurbsCurve "c1xShape" "c1xT" ⟨1, false, [⟨1, 0, 0⟩, ⟨3, 0, 0⟩], [0, 1]⟩))
        true [] false ⟨[], [], 0, 0, []⟩).1 = none ∧
    load_curve (save_curve "c1x"
        (.shape (.nurbsCurve "c1xShape" "c1xT" ⟨1, false, [⟨1, 0, 0⟩, ⟨3, 0, 0⟩], [0, 1]⟩))
        true [] false ⟨[], [], 0, 0, []⟩).2.fs "c1x.json" =
      .ok (curveRecord "c1x" ⟨1, false, [⟨-1, 0, 0⟩, ⟨1, 0, 0⟩], [0, 1]⟩) ∧
    load_curve (save_curve "c1x"
        (.shape (.nurbsCurve "c1xShape" "c1xT" ⟨1, false, [⟨1, 0, 0⟩, ⟨3, 0, 0⟩], [0, 1]⟩))
        true [] false ⟨[], [], 0, 0, []⟩).2.fs "c1x.json" ≠
      .ok (curveRecord "c1x" ⟨1, false, [⟨1, 0, 0⟩, ⟨3, 0, 0⟩], [0, 1]⟩) := by
  have hc : centerPoints [(⟨1, 0, 0⟩ : Vec3), ⟨3, 0, 0⟩] = [⟨-1, 0, 0⟩, ⟨1, 0, 0⟩] := by
    simp [centerPoints, centerOfPoints]
    norm_num
  have hfs : (save_curve "c1x"
      (.shape (.nurbsCurve "c1xShape" "c1xT" ⟨1, false, [⟨1, 0, 0⟩, ⟨3, 0, 0⟩], [0, 1]⟩))
      true [] false ⟨[], [], 0, 0, []⟩).2.fs =
      writeFile (writeFile [] ("c1x" ++ ".json")
          (.json (curveRecord "c1x" ⟨1, false, [⟨-1, 0, 0⟩, ⟨1, 0, 0⟩], [0, 1]⟩)))
        ("c1x" ++ ".png") .image := by
    rw [save_curve_fs_ok]
    simp [hc]
  have hjs : "c1x" ++ ".json" = "c1x.json" := rfl
  have hload : load_curve (save_curve "c1x"
      (.shape (.nurbsCurve "c1xShape" "c1xT" ⟨1, false, [⟨1, 0, 0⟩, ⟨3, 0, 0⟩], [0, 1]⟩))
      true [] false ⟨[], [], 0, 0, []⟩).2.fs "c1x.json" =
      .ok (curveRecord "c1x" ⟨1, false, [⟨-1, 0, 0⟩, ⟨1, 0, 0⟩], [0, 1]⟩) := by
    rw [hfs, ← hjs]
    refine load_curve_of_lookup_json _ _ _ ?_
    rw [lookupFile_writeFile_ne _ _ _ _ (Ne.symm (json_path_ne_png_path "c1x")),
      lookupFile_writeFile_self]
  have hne : curveRecord "c1x" ⟨1, false, [⟨-1, 0, 0⟩, ⟨1, 0, 0⟩], [0, 1]⟩ ≠
      curveRecord "c1x" ⟨1, false, [⟨1, 0, 0⟩, ⟨3, 0, 0⟩], [0, 1]⟩ := by
    intro h
    have h2 := congrArg decodeRecord h
    rw [decodeRecord_curveRecord, decodeRecord_curveRecord] at h2
    exact absurd (Option.some.inj h2) (by decide)
  exact ⟨rfl, hload, fun h => hne (Except.ok.inj (hload.symm.trans h))⟩

/-- C3 (code evaluation): calling `save_curve` with no curve argument while
the selection is empty does not surface a NoSelectionError-typed failure:
the IndexError from `pm.selected()[0]` is caught and printed and execution
continues, after which building the TypeError message calls `None.name()`
and the call dies with an AttributeError. -/
theorem save_curve_empty_selection_prints_then_raises :
    (save_curve "ctl" PyObj.pynone true [] false ⟨[], [], 0, 0, []⟩).1 =
      some (.attributeError "NoneType object has no attribute name") ∧
    (save_curve "ctl" PyObj.pynone true [] false ⟨[], [], 0, 0, []⟩).2.printed =
      ["list index out of range"] ∧
    isWrongTypeFailure
      (save_curve "ctl" PyObj.pynone true [] false ⟨[], [], 0, 0, []⟩).1 = false :=
  ⟨rfl, rfl, rfl⟩

/-- C4 counterexample: a transform with no shape child — `getShape()` gives
`None`, the resolved shape is not a NURBS curve, yet the operation fails
with an AttributeError raised while formatting the TypeError message, not
with the WrongTypeError-typed failure the claim states. -/
theorem wrongType_shapeless_transform_cex :
    (save_curve "c" (.transform ⟨"grp", none⟩) true [] false ⟨[], [], 0, 0, []⟩).1 =
      some (.attributeError "NoneType object has no attribute name") ∧
    isWrongTypeFailure
      (save_curve "c" (.transform ⟨"grp", none⟩) true [] false ⟨[], [], 0, 0, []⟩).1 =
      false :=
  ⟨rfl, rfl⟩

/-- C4 (amended): the serializer descends from a transform to its shape
child, and when that child exists but is not a NURBS curve the operation
fails with the TypeError of line 83 naming that shape; when the transform
has no shape child at all it fails with an AttributeError instead of the
typed failure; a curve-shaped resolution never triggers the type failure,
whether reached through its transform or passed directly. -/
theorem wrongType_descends_and_raises (name n p : String) (t : TransformNode)
    (d : CurveDesc) (cp : Bool) (sel : List PyObj) (cap : Bool) (st : HostState) :
    (t.shape = some (.otherShape n) →
      (save_curve name (.transform t) cp sel cap st).1 =
        some (.typeError (n ++ " is not of type NurbsCurve"))) ∧
    (t.shape = some (.nurbsCurve n p d) →
      isWrongTypeFailure (save_curve name (.transform t) cp sel cap st).1 = false) ∧
    (t.shape = none →
      (save_curve name (.transform t) cp sel cap st).1 =
        some (.attributeError "NoneType object has no attribute name")) ∧
    isWrongTypeFailure
      (save_curve name (.shape (.nurbsCurve n p d)) cp sel cap st).1 = false := by
  obtain ⟨tn, ts⟩ := t
  refine ⟨?_, ?_, ?_, ?_⟩
  · rintro rfl
    rfl
  · rintro rfl
    cases cap <;> rfl
  · rintro rfl
    rfl
  · cases cap <;> rfl

/-- C4 witness: concrete instances of all four parts of the amended claim. -/
theorem wrongType_descends_and_raises_witness :
    (save_curve "c" (.transform ⟨"grp", some (.otherShape "gShape")⟩) true [] false
        ⟨[], [], 0, 0, []⟩).1 =
      some (.typeError ("gShape" ++ " is not of type NurbsCurve")) ∧
    isWrongTypeFailure (save_curve "c"
        (.transform ⟨"grp", some (.nurbsCurve "s" "grp" ⟨1, false, [⟨0, 0, 0⟩], [0]⟩)⟩)
        false [] false ⟨[], [], 0, 0, []⟩).1 = false ∧
    (save_curve "c" (.transform ⟨"grp", none⟩) true [] false ⟨[], [], 0, 0, []⟩).1 =
      some (.attributeError "NoneType object has no attribute name") ∧
    isWrongTypeFailure (save_curve "c"
        (.shape (.nurbsCurve "s" "grp" ⟨1, false, [⟨0, 0, 0⟩], [0]⟩))
        false [] false ⟨[], [], 0, 0, []⟩).1 = false :=
  ⟨(wrongType_descends_and_raises "c" "gShape" "grp" ⟨"grp", some (.otherShape "gShape")⟩
      ⟨1, false, [⟨0, 0, 0⟩], [0]⟩ true [] false ⟨[], [], 0, 0, []⟩).1 rfl,
   (wrongType_descends_and_raises "c" "s" "grp"
      ⟨"grp", some (.nurbsCurve "s" "grp" ⟨1, false, [⟨0, 0, 0⟩], [0]⟩)⟩
      ⟨1, false, [⟨0, 0, 0⟩], [0]⟩ false [] false ⟨[], [], 0, 0, []⟩).2.1 rfl,
   (wrongType_descends_and_raises "c" "s" "grp" ⟨"grp", none⟩
      ⟨1, false, [⟨0, 0, 0⟩], [0]⟩ true [] false ⟨[], [], 0, 0, []⟩).2.2.1 rfl,
   (wrongType_descends_and_raises "c" "s" "grp" ⟨"grp", none⟩
      ⟨1, false, [⟨0, 0, 0⟩], [0]⟩ false [] false ⟨[], [], 0, 0, []⟩).2.2.2⟩

/-- C10 counterexample: a non-empty string passed as the curve argument (as
the GUI save handler does) makes `save_curve` raise an AttributeError — the
TypeError the claim names is never constructed, because formatting its
message calls `name()` on the string first. -/
theorem save_curve_string_cex :
    (save_curve "c" (.pystr "circle") true [] false ⟨[], [], 0, 0, []⟩).1 =
      some (.attributeError "str object has no attribute name") ∧
    isWrongTypeFailure
      (save_curve "c" (.pystr "circle") true [] false ⟨[], [], 0, 0, []⟩).1 = false :=
  ⟨rfl, rfl⟩

/-- C10 (amended): every non-empty string passed as the curve argument makes
`save_curve` fail, for any name, centering flag, selection and state — with
an AttributeError (str has no name attribute, hit while formatting the
intended TypeError message) — so a curve can indeed never be specified by
name through this parameter, though the failure is not a TypeError. -/
theorem save_curve_string_always_fails (s : String) (hs : s ≠ "") (name : String)
    (cp : Bool) (sel : List PyObj) (cap : Bool) (st : HostState) :
    (save_curve name (.pystr s) cp sel cap st).1 =
      some (.attributeError "str object has no attribute name") := by
  have hemp : s.isEmpty = false := by
    rw [Bool.eq_false_iff]
    intro h
    exact hs ((String.isEmpty_iff s).mp h)
  have htr : (PyObj.pystr s).truthy = true := by
    simp [PyObj.truthy, hemp]
  simp [save_curve, htr, PyObj.pyName]

/-- C10 witness: the amended claim at the concrete string circle. -/
theorem save_curve_string_always_fails_witness :
    ("circle" ≠ "") ∧
    (save_curve "c" (.pystr "circle") true [] false ⟨[], [], 0, 0, []⟩).1 =
      some (.attributeError "str object has no attribute name") :=
  ⟨by decide,
   save_curve_string_always_fails "circle" (by decide) "c" true [] false ⟨[], [], 0, 0, []⟩⟩

/-- C7: two successive saves under one name (the capture step succeeding, on
a library whose paths are unique) leave exactly one record file and exactly
one thumbnail file for that name, and the record content is the data of the
second save — the first entry is silently overwritten. -/
theorem save_twice_single_entry (name shp1 par1 shp2 par2 : String)
    (d1 d2 : CurveDesc) (cp : Bool) (sel1 sel2 : List PyObj) (st : HostState)
    (hnd : (st.fs.map Prod.fst).Nodup) (_hdiff : d1 ≠ d2) (fs2 : FS)
    (hfs2 : fs2 = (save_curve name (.shape (.nurbsCurve shp2 par2 d2)) cp sel2 false
      (save_curve name (.shape (.nurbsCurve shp1 par1 d1)) cp sel1 false st).2).2.fs) :
    fs2.countP (fun e => e.1 = name ++ ".json") = 1 ∧
    fs2.countP (fun e => e.1 = name ++ ".png") = 1 ∧
    lookupFile fs2 (name ++ ".json") =
      some (.json (curveRecord name
        { d2 with point := if cp then centerPoints d2.point else d2.point })) := by
  subst hfs2
  rw [save_curve_fs_ok, save_curve_fs_ok]
  have hnd1 := writeFile_keys_nodup st.fs (name ++ ".json")
    (.json (curveRecord name
      { d1 with point := if cp then centerPoints d1.point else d1.point })) hnd
  have hnd2 := writeFile_keys_nodup _ (name ++ ".png") .image hnd1
  have hnd3 := writeFile_keys_nodup _ (name ++ ".json")
    (.json (curveRecord name
      { d2 with point := if cp then centerPoints d2.point else d2.point })) hnd2
  refine ⟨?_, ?_, ?_⟩
  · rw [countP_writeFile_ne _ _ _ _ (Ne.symm (json_path_ne_png_path name))]
    exact countP_writeFile_self _ _ _ hnd2
  · exact countP_writeFile_self _ _ _ hnd3
  · rw [lookupFile_writeFile_ne _ _ _ _ (Ne.symm (json_path_ne_png_path name)),
      lookupFile_writeFile_self]

/-- C7 witness: two concrete saves under the name ctl starting from an empty
library leave one record, one thumbnail, and the second data. -/
theorem save_twice_single_entry_witness :
    List.countP (fun e => e.1 = "ctl" ++ ".json")
      (save_curve "ctl" (.shape (.nurbsCurve "s2" "t2" ⟨2, true, [⟨1, 0, 0⟩], [0, 1]⟩))
        false [] false
        (save_curve "ctl" (.shape (.nurbsCurve "s1" "t1" ⟨1, false, [⟨0, 0, 0⟩], [0]⟩))
          false [] false ⟨[], [], 0, 0, []⟩).2).2.fs = 1 ∧
    lookupFile
      (save_curve "ctl" (.shape (.nurbsCurve "s2" "t2" ⟨2, true, [⟨1, 0, 0⟩], [0, 1]⟩))
        false [] false
        (save_curve "ctl" (.shape (.nurbsCurve "s1" "t1" ⟨1, false, [⟨0, 0, 0⟩], [0]⟩))
          false [] false ⟨[], [], 0, 0, []⟩).2).2.fs ("ctl" ++ ".json") =
      some (.json (curveRecord "ctl" ⟨2, true, [⟨1, 0, 0⟩], [0, 1]⟩)) :=
  ⟨(save_twice_single_entry "ctl" "s1" "t1" "s2" "t2"
      ⟨1, false, [⟨0, 0, 0⟩], [0]⟩ ⟨2, true, [⟨1, 0, 0⟩], [0, 1]⟩ false [] []
      ⟨[], [], 0, 0, []⟩ (by simp) (by decide) _ rfl).1,
   (save_twice_single_entry "ctl" "s1" "t1" "s2" "t2"
      ⟨1, false, [⟨0, 0, 0⟩], [0]⟩ ⟨2, true, [⟨1, 0, 0⟩], [0, 1]⟩ false [] []
      ⟨[], [], 0, 0, []⟩ (by simp) (by decide) _ rfl).2.2⟩

/-- C8: for a name whose record and thumbnail both exist, the delete action
completes without error, afterwards the entry no longer exists, and neither
the record file nor the thumbnail file remains. -/
theorem deleteItem_removes_record_and_icon (name : String) (st : HostState)
    (c1 c2 : FileContent)
    (h1 : lookupFile st.fs (name ++ ".json") = some c1)
    (h2 : lookupFile st.fs (name ++ ".png") = some c2) :
    (deleteItem [name] st).1 = none ∧
    existsEntry (deleteItem [name] st).2.fs name = false ∧
    lookupFile (deleteItem [name] st).2.fs (name ++ ".json") = none ∧
    lookupFile (deleteItem [name] st).2.fs (name ++ ".png") = none := by
  have h01 : deleteItem [name] st = deleteOne name st := rfl
  have hPn : lookupFile (removeFile st.fs (name ++ ".json")) (name ++ ".png") = some c2 := by
    rw [lookupFile_removeFile_ne _ _ _ (json_path_ne_png_path name)]
    exact h2
  have hone : deleteOne name st =
      (none, { st with
        printed := st.printed ++
          ["Removing " ++ name ++ ".json and " ++ name ++ ".png in folder " ++ save_folder],
        fs := removeFile (removeFile st.fs (name ++ ".json")) (name ++ ".png") }) := by
    simp [deleteOne, h1, hPn]
  have hJ : lookupFile (removeFile (removeFile st.fs (name ++ ".json")) (name ++ ".png"))
      (name ++ ".json") = none := by
    rw [lookupFile_removeFile_ne _ _ _ (Ne.symm (json_path_ne_png_path name)),
      lookupFile_removeFile_self]
  have hP : lookupFile (removeFile (removeFile st.fs (name ++ ".json")) (name ++ ".png"))
      (name ++ ".png") = none :=
    lookupFile_removeFile_self _ _
  rw [h01, hone]
  refine ⟨rfl, ?_, ?_, ?_⟩
  · simp [existsEntry_eq_isSome, hJ]
  · simp [hJ]
  · simp [hP]

/-- C8 witness: deleting the entry a from a two-file library removes both
files and the entry no longer exists. -/
theorem deleteItem_removes_record_and_icon_witness :
    (deleteItem ["a"] ⟨[("a.json", .json (.num 1)), ("a.png", .image)], [], 0, 0, []⟩).1 =
      none ∧
    existsEntry (deleteItem ["a"]
      ⟨[("a.json", .json (.num 1)), ("a.png", .image)], [], 0, 0, []⟩).2.fs "a" = false ∧
    lookupFile (deleteItem ["a"]
      ⟨[("a.json", .json (.num 1)), ("a.png", .image)], [], 0, 0, []⟩).2.fs
      ("a" ++ ".json") = none ∧
    lookupFile (deleteItem ["a"]
      ⟨[("a.json", .json (.num 1)), ("a.png", .image)], [], 0, 0, []⟩).2.fs
      ("a" ++ ".png") = none :=
  deleteItem_removes_record_and_icon "a"
    ⟨[("a.json", .json (.num 1)), ("a.png", .image)], [], 0, 0, []⟩
    (.json (.num 1)) .image rfl rfl

/-- C9 (code evaluation): when the capture step raises, `save_icon` returns
with the scene visibility and camera view NOT restored — in a scene whose
objects ctl and other are both visible, the failing call leaves other hidden
and the view changed — whereas the successful call does restore both. -/
theorem save_icon_failure_skips_restore :
    (save_icon "ctl" "c" true ⟨[], [("ctl", true), ("other", true)], 5, 0, []⟩).1 =
      some (.runtimeError "playblast failed") ∧
    (save_icon "ctl" "c" true ⟨[], [("ctl", true), ("other", true)], 5, 0, []⟩).2.objects =
      [("ctl", true), ("other", false)] ∧
    (save_icon "ctl" "c" true ⟨[], [("ctl", true), ("other", true)], 5, 0, []⟩).2.view = 6 ∧
    (save_icon "ctl" "c" false ⟨[], [("ctl", true), ("other", true)], 5, 0, []⟩).2.objects =
      [("ctl", true), ("other", true)] ∧
    (save_icon "ctl" "c" false ⟨[], [("ctl", true), ("other", true)], 5, 0, []⟩).2.view = 5 :=
  ⟨rfl, rfl, rfl, rfl, rfl⟩
